import Mathlib

/-!
Verification of the technical-indicator and signal-generation engine of the
stock-investment report generator.

The Python sources under `src/tools/report_generator/` are shallowly embedded
here.  Price and indicator values are modelled as rationals (`ℚ`); square
roots (Bollinger standard deviation, annualised volatility) live in `ℝ`.
Pandas "NaN / missing" values are modelled by `Option`: `none` is a value that
is absent or undefined at a position.  Float singularities are modelled where
they matter and documented at the definition they concern.
-/

/-- Arithmetic mean of a list of rationals (`sum / len`; `0` for `[]`,
which only arises at call sites that already guard against emptiness). -/
def listMean (xs : List ℚ) : ℚ := xs.sum / xs.length

/-- Trailing window of `w` values ending at position `i`, as used by pandas
`Series.rolling(window=w)` applied to a series without missing values:
the window exists iff positions `i - w + 1 .. i` all exist. -/
def rollingWindow (xs : List ℚ) (w i : ℕ) : Option (List ℚ) :=
  if w ≤ i + 1 ∧ i < xs.length then some ((xs.drop (i + 1 - w)).take w) else none

/-- `rolling(window=w).mean()` at position `i` (`None` during warm-up),
the `_calculate_sma` helper of both analyzer classes. -/
def rollingMean (xs : List ℚ) (w i : ℕ) : Option ℚ :=
  (rollingWindow xs w i).map listMean

/-- Sample variance with denominator `n - 1`, the square of pandas
`std(ddof=1)`.  All call sites use windows of length ≥ 2, so the guard
branch for degenerate lengths is unreachable there. -/
def sampleVariance (xs : List ℚ) : ℚ :=
  if xs.length ≤ 1 then 0
  else (xs.map (fun x => (x - listMean xs) ^ 2)).sum / ((xs.length : ℚ) - 1)

/-- Per-position gains fed to the RSI: `delta = prices.diff()`,
`gain = delta.where(delta > 0, 0)`.  Position 0 of `diff` is NaN, and
`.where` replaces it by `0` because `NaN > 0` is false, so the gain series
has the same length as the input and starts with `0`. -/
def gainSeries : List ℚ → List ℚ
  | [] => []
  | x :: xs => 0 :: ((x :: xs).zip xs).map (fun p => max (p.2 - p.1) 0)

/-- Per-position losses fed to the RSI: `-delta.where(delta < 0, 0)`,
with the position-0 NaN likewise turned into `0`. -/
def lossSeries : List ℚ → List ℚ
  | [] => []
  | x :: xs => 0 :: ((x :: xs).zip xs).map (fun p => max (p.1 - p.2) 0)

/-- The final RSI formula `rsi = 100 - 100 / (1 + gain/loss)` applied to an
average gain and an average loss.  In the Python code this is float
arithmetic: when the loss mean is `0` and the gain mean is positive,
`gain/loss` is `+inf` and the formula collapses to `100`; when both means
are `0`, `0/0` is NaN and the RSI is undefined at that position. -/
def rsiValue (g l : ℚ) : Option ℚ :=
  if l = 0 then (if g = 0 then none else some 100)
  else some (100 - 100 / (1 + g / l))

/-- `StockAnalyzer._calculate_rsi` / `LongTermStockAnalyzer._calculate_rsi`
(the two classes define the same computation) at position `i`. -/
def calculate_rsi (prices : List ℚ) (period i : ℕ) : Option ℚ :=
  match rollingMean (gainSeries prices) period i,
        rollingMean (lossSeries prices) period i with
  | some g, some l => rsiValue g l
  | _, _ => none

/-- `rolling(window=period).std()` at position `i`, as a real number. -/
noncomputable def rollingStd (xs : List ℚ) (w i : ℕ) : Option ℝ :=
  (rollingWindow xs w i).map (fun ws => Real.sqrt ((sampleVariance ws : ℚ) : ℝ))

/-- `StockAnalyzer._calculate_bollinger_bands` (and the identical method of
`LongTermStockAnalyzer`) at position `i`: middle band is the rolling mean,
upper/lower bands are `middle ± 2·std`.  The three bands share one rolling
window, so they are defined at exactly the same positions.  Returned in the
source order `(upper, middle, lower)`. -/
noncomputable def calculate_bollinger_bands (prices : List ℚ) (period i : ℕ) :
    Option (ℝ × ℝ × ℝ) :=
  match rollingWindow prices period i with
  | none => none
  | some ws =>
      let sma : ℝ := ((listMean ws : ℚ) : ℝ)
      let std : ℝ := Real.sqrt ((sampleVariance ws : ℚ) : ℝ)
      some (sma + std * 2, sma, sma - std * 2)

/-- Ascending sort of a window of values.  pandas `Series.quantile`
interpolates over exactly this sorted order. -/
def sortedVals (xs : List ℚ) : List ℚ := List.insertionSort (· ≤ ·) xs

/-- pandas `Series.quantile(q)` with the default linear interpolation,
over the already-sorted values `s`: with `n = len(s)`, `pos = q*(n-1)` and
`k = ⌊pos⌋`, the result interpolates between the `k`-th and `(k+1)`-th
sorted values (and is the last value when `k` is already the last index). -/
def quantileSorted (s : List ℚ) (q : ℚ) : ℚ :=
  if ⌊q * ((s.length : ℚ) - 1)⌋.toNat + 1 < s.length then
    s.getD ⌊q * ((s.length : ℚ) - 1)⌋.toNat 0 +
      (q * ((s.length : ℚ) - 1) - (⌊q * ((s.length : ℚ) - 1)⌋.toNat : ℚ)) *
        (s.getD (⌊q * ((s.length : ℚ) - 1)⌋.toNat + 1) 0 -
          s.getD ⌊q * ((s.length : ℚ) - 1)⌋.toNat 0)
  else s.getD (s.length - 1) 0

/-- `Series.quantile(q)` of a window of values. -/
def seriesQuantile (xs : List ℚ) (q : ℚ) : ℚ := quantileSorted (sortedVals xs) q

/-- `Series.min()` of a nonempty window: the head of the sorted values. -/
def seriesMin (xs : List ℚ) : ℚ := (sortedVals xs).getD 0 0

/-- `Series.max()` of a nonempty window: the last of the sorted values. -/
def seriesMax (xs : List ℚ) : ℚ := (sortedVals xs).getD (xs.length - 1) 0

/-- `LongTermStockAnalyzer._calculate_support_resistance`: from the trailing
`lookback` closes, the support levels `[min, 25th pct, 33rd pct]` and the
resistance levels `[max, 75th pct, 67th pct]` (`Series.tail(lookback)` is
`drop (length - lookback)`). -/
def calculate_support_resistance (prices : List ℚ) (lookback : ℕ) :
    List ℚ × List ℚ :=
  if prices.length < lookback then ([], [])
  else
    ([seriesMin (prices.drop (prices.length - lookback)),
      seriesQuantile (prices.drop (prices.length - lookback)) (1 / 4),
      seriesQuantile (prices.drop (prices.length - lookback)) (33 / 100)],
     [seriesMax (prices.drop (prices.length - lookback)),
      seriesQuantile (prices.drop (prices.length - lookback)) (3 / 4),
      seriesQuantile (prices.drop (prices.length - lookback)) (67 / 100)])

/-- `needle` occurs at the start of `hay` (character lists). -/
def charsStartWith : List Char → List Char → Bool
  | _, [] => true
  | [], _ :: _ => false
  | a :: as, b :: bs => a == b && charsStartWith as bs

/-- `needle` occurs somewhere inside `hay` (character lists). -/
def charsContain : List Char → List Char → Bool
  | [], needle => needle.isEmpty
  | h :: t, needle => charsStartWith (h :: t) needle || charsContain t needle

/-- Python's substring test `needle in hay`, used by the signal aggregators
to classify a label as a buy-flavoured or sell-flavoured string. -/
def strContains (hay needle : String) : Bool := charsContain hay.data needle.data

/-- Python `dict.get(key)` over an association list whose values are
optional: the result is `none` both when the key is absent and when the
key is present with value `None`. -/
def dictGet (m : List (String × Option ℚ)) (k : String) : Option ℚ :=
  (m.lookup k).getD none

namespace LongTermStockAnalyzer

/-- The indicator keys inserted by
`LongTermStockAnalyzer._calculate_limited_indicators` for a series with `L`
valid closes (invoked when `L < 50`).  Every inserted key survives into the
returned latest-value map whatever its value, so the key set is a function
of `L` alone. -/
def limitedIndicatorKeys (L : ℕ) : List String :=
  (if 20 ≤ L then
    ["sma_20", "ema_20", "rsi_14", "bb_upper_20", "bb_middle_20", "bb_lower_20"]
   else [])
  ++ (if 14 ≤ L then ["stoch_k_14", "stoch_d_14"] else [])
  ++ (if 5 ≤ L then ["price_change_5d"] else [])
  ++ (if 10 ≤ L then ["price_change_10d"] else [])
  ++ (if 20 ≤ L then ["price_change_20d"] else [])
  ++ (if 20 ≤ L then ["trend_strength", "trend_direction"] else [])
  ++ ["support_levels", "resistance_levels"]

/-- The indicator keys inserted by the main branch of
`LongTermStockAnalyzer.calculate_long_term_indicators` for a series with
`L ≥ 50` valid closes; the trend pair comes from the `≥200 / ≥100 / ≥50`
elif-chain, which fires whenever `L ≥ 50`. -/
def mainIndicatorKeys (L : ℕ) : List String :=
  (if 50 ≤ L then ["sma_50"] else []) ++ (if 100 ≤ L then ["sma_100"] else [])
  ++ (if 200 ≤ L then ["sma_200"] else [])
  ++ (if 50 ≤ L then ["ema_50"] else []) ++ (if 100 ≤ L then ["ema_100"] else [])
  ++ (if 200 ≤ L then ["ema_200"] else [])
  ++ (if 26 ≤ L then ["rsi_26"] else []) ++ (if 52 ≤ L then ["rsi_52"] else [])
  ++ (if 50 ≤ L then ["bb_upper_50", "bb_middle_50", "bb_lower_50"] else [])
  ++ (if 26 ≤ L then ["macd_line_26", "macd_signal_26", "macd_histogram_26"] else [])
  ++ (if 26 ≤ L then ["stoch_k_26", "stoch_d_26"] else [])
  ++ (if 50 ≤ L then ["price_change_50d"] else [])
  ++ (if 100 ≤ L then ["price_change_100d"] else [])
  ++ (if 200 ≤ L then ["price_change_200d"] else [])
  ++ (if 252 ≤ L then ["price_change_1y"] else [])
  ++ (if 50 ≤ L then ["volatility_50d"] else [])
  ++ (if 100 ≤ L then ["volatility_100d"] else [])
  ++ (if 200 ≤ L then ["volatility_200d"] else [])
  ++ (if 50 ≤ L then ["trend_strength", "trend_direction"] else [])
  ++ ["support_levels", "resistance_levels"]
  ++ (if 50 ≤ L then ["volume_sma_50", "volume_ratio_50"] else [])

/-- The key set of the map returned by `calculate_long_term_indicators` for
a price series with `L ≥ 1` valid closes: below 50 closes the engine falls
back to the limited indicator set. -/
def longTermIndicatorKeys (L : ℕ) : List String :=
  if L < 50 then limitedIndicatorKeys L else mainIndicatorKeys L

/-- `LongTermStockAnalyzer.generate_long_term_signals`: the long-horizon
signal classifier and aggregator.  Labels are the source's literal strings;
the aggregation counts labels containing 強気 (bullish) and 弱気 (bearish). -/
def generate_long_term_signals (indicators : List (String × Option ℚ))
    (current_price : ℚ) : List (String × String) :=
  let trend_signal :=
    match dictGet indicators "sma_50", dictGet indicators "sma_200" with
    | some sma_50, some sma_200 =>
        if sma_200 < sma_50 then "ゴールデンクロス（強気）" else "デッドクロス（弱気）"
    | _, _ =>
        match dictGet indicators "sma_20", dictGet indicators "sma_50" with
        | some sma_20, some sma_50 =>
            if sma_50 < sma_20 then "短期ゴールデンクロス（強気）"
            else "短期デッドクロス（弱気）"
        | _, _ => "トレンド判定不可"
  let signals₂ := [("trend_signal", trend_signal)] ++
    (match dictGet indicators "rsi_26" with
     | some rsi_26 =>
         [("rsi_signal",
           if 70 < rsi_26 then "売られすぎ（強気）"
           else if rsi_26 < 30 then "買われすぎ（弱気）"
           else "中立")]
     | none => [])
  let signals₃ := signals₂ ++
    (match dictGet indicators "bb_upper_50", dictGet indicators "bb_lower_50" with
     | some bb_upper_50, some bb_lower_50 =>
         [("bb_signal",
           if bb_upper_50 < current_price then "バンド上限突破（強気）"
           else if current_price < bb_lower_50 then "バンド下限突破（弱気）"
           else "バンド内（中立）")]
     | _, _ => [])
  let signals₄ := signals₃ ++
    (match dictGet indicators "macd_line_26", dictGet indicators "macd_signal_26" with
     | some macd_line, some macd_signal =>
         [("macd_signal", if macd_signal < macd_line then "MACD強気" else "MACD弱気")]
     | _, _ => [])
  let bullish_count := (signals₄.map Prod.snd).countP (fun v => strContains v "強気")
  let bearish_count := (signals₄.map Prod.snd).countP (fun v => strContains v "弱気")
  signals₄ ++
    [("overall_signal",
      if bearish_count < bullish_count then "強気"
      else if bullish_count < bearish_count then "弱気" else "中立")]

end LongTermStockAnalyzer

namespace StockAnalyzer

/-- The signal map built by `StockAnalyzer.generate_trading_signals`:
the per-indicator labels in insertion order, plus the `overall_signal`,
`buy_count` and `sell_count` entries the function appends to the same
dictionary. -/
structure TradingSignals where
  labels : List (String × String)
  overall_signal : String
  buy_count : ℕ
  sell_count : ℕ
deriving DecidableEq

/-- RSI block of `generate_trading_signals` (threshold 70/30). -/
def rsiSignalPart (indicators : List (String × Option ℚ)) : List (String × String) :=
  match dictGet indicators "rsi_14" with
  | some rsi =>
      if 70 < rsi then [("rsi_signal", "売り"), ("rsi_strength", "強い")]
      else if rsi < 30 then [("rsi_signal", "買い"), ("rsi_strength", "強い")]
      else [("rsi_signal", "中立"), ("rsi_strength", "弱い")]
  | none => []

/-- `indicators.get('macd_histogram', 0)`: an absent key defaults to `0`,
but a key present with value `None` flows into a `None > 0` comparison and
raises `TypeError`; that case is the `none` of this fetch. -/
def macdHistDefault (indicators : List (String × Option ℚ)) : Option ℚ :=
  match indicators.lookup "macd_histogram" with
  | none => some 0
  | some v => v

/-- MACD block of `generate_trading_signals`.  The histogram is only
fetched when one of the strict line/signal comparisons is true (Python's
`and` short-circuits), so the `TypeError` case — modelled as `none` — can
only fire then; the enclosing `except` turns it into an empty result. -/
def macdSignalPart (indicators : List (String × Option ℚ)) :
    Option (List (String × String)) :=
  match dictGet indicators "macd_line", dictGet indicators "macd_signal" with
  | some macd_line, some macd_signal =>
      if macd_signal < macd_line then
        match macdHistDefault indicators with
        | some h => some [("macd_signal", if 0 < h then "買い" else "中立")]
        | none => none
      else if macd_line < macd_signal then
        match macdHistDefault indicators with
        | some h => some [("macd_signal", if h < 0 then "売り" else "中立")]
        | none => none
      else some [("macd_signal", "中立")]
  | _, _ => some []

/-- Bollinger block of `generate_trading_signals`; the Python guard
`and current_price` is a truthiness test, so the block is skipped when the
current price is `None` or `0`. -/
def bbSignalPart (indicators : List (String × Option ℚ)) (current_price : Option ℚ) :
    List (String × String) :=
  match dictGet indicators "bb_upper", dictGet indicators "bb_lower", current_price with
  | some bb_upper, some bb_lower, some p =>
      if p ≠ 0 then
        [("bb_signal",
          if bb_upper ≤ p then "売り（上方ブレイクアウト）"
          else if p ≤ bb_lower then "買い（下方ブレイクアウト）"
          else "中立")]
      else []
  | _, _, _ => []

/-- Stochastic block of `generate_trading_signals` (80/20 thresholds on
both %K and %D). -/
def stochSignalPart (indicators : List (String × Option ℚ)) : List (String × String) :=
  match dictGet indicators "stoch_k", dictGet indicators "stoch_d" with
  | some stoch_k, some stoch_d =>
      [("stoch_signal",
        if 80 < stoch_k ∧ 80 < stoch_d then "売り"
        else if stoch_k < 20 ∧ stoch_d < 20 then "買い"
        else "中立")]
  | _, _ => []

/-- `sum(1 for signal in signals.values() if '買い' in str(signal))`. -/
def countBuyLabels (labels : List (String × String)) : ℕ :=
  (labels.map Prod.snd).countP (fun v => strContains v "買い")

/-- `sum(1 for signal in signals.values() if '売り' in str(signal))`. -/
def countSellLabels (labels : List (String × String)) : ℕ :=
  (labels.map Prod.snd).countP (fun v => strContains v "売り")

/-- The overall verdict from the directional counts. -/
def overallOf (buy_signals sell_signals : ℕ) : String :=
  if sell_signals < buy_signals then "買い推奨"
  else if buy_signals < sell_signals then "売り推奨"
  else "中立"

/-- `StockAnalyzer.generate_trading_signals`: per-indicator labels, the
substring-based buy/sell counts, and the overall verdict.  `none` models
the only exception path (a present-but-`None` MACD histogram), where the
source returns an empty dictionary. -/
def generate_trading_signals (indicators : List (String × Option ℚ))
    (current_price : Option ℚ) : Option TradingSignals :=
  match macdSignalPart indicators with
  | none => none
  | some macdLabels =>
      let labels := rsiSignalPart indicators ++ macdLabels ++
        bbSignalPart indicators current_price ++ stochSignalPart indicators
      some ⟨labels, overallOf (countBuyLabels labels) (countSellLabels labels),
        countBuyLabels labels, countSellLabels labels⟩

end StockAnalyzer

/-- Scenario D input: a buy-labelled RSI, a sell-labelled MACD, a neutral
Bollinger and a neutral Stochastic. -/
def scenarioD_indicators : List (String × Option ℚ) :=
  [("rsi_14", some 25), ("macd_line", some 1), ("macd_signal", some 2),
   ("macd_histogram", some (-1)), ("bb_upper", some 110), ("bb_lower", some 90),
   ("stoch_k", some 50), ("stoch_d", some 50)]

/-- The signal map the classifier produces on Scenario D. -/
def scenarioD_signals : StockAnalyzer.TradingSignals :=
  ⟨[("rsi_signal", "買い"), ("rsi_strength", "強い"), ("macd_signal", "売り"),
    ("bb_signal", "中立"), ("stoch_signal", "中立")], "中立", 1, 1⟩

/-- pandas `Series.ewm(span=s).mean()` with the default `adjust=True`:
position `i` is the `(1-α)^j`-weighted average of the first `i+1` values,
with `α = 2/(span+1)`. -/
def ewmAt (xs : List ℚ) (span i : ℕ) : ℚ :=
  (((List.range (i + 1)).map
      (fun j => (1 - 2 / ((span : ℚ) + 1)) ^ j * xs.getD (i - j) 0)).sum) /
    (((List.range (i + 1)).map (fun j => (1 - 2 / ((span : ℚ) + 1)) ^ j)).sum)

/-- The exponential moving average as a series. -/
def ewmSeries (xs : List ℚ) (span : ℕ) : List ℚ :=
  (List.range xs.length).map (ewmAt xs span)

/-- `StockAnalyzer._calculate_macd`: MACD line `EMA(12) − EMA(26)`. -/
def macdLineSeries (prices : List ℚ) : List ℚ :=
  List.zipWith (fun a b => a - b) (ewmSeries prices 12) (ewmSeries prices 26)

/-- `StockAnalyzer._calculate_macd`: signal line `EMA(9)` of the MACD line. -/
def macdSignalSeries (prices : List ℚ) : List ℚ :=
  ewmSeries (macdLineSeries prices) 9

/-- `StockAnalyzer._calculate_macd`: histogram `line − signal`. -/
def macdHistogramSeries (prices : List ℚ) : List ℚ :=
  List.zipWith (fun a b => a - b) (macdLineSeries prices) (macdSignalSeries prices)

/-- `rolling(window=w).min()` at position `i`. -/
def rollingMinAt (xs : List ℚ) (w i : ℕ) : Option ℚ :=
  (rollingWindow xs w i).bind List.minimum?

/-- `rolling(window=w).max()` at position `i`. -/
def rollingMaxAt (xs : List ℚ) (w i : ℕ) : Option ℚ :=
  (rollingWindow xs w i).bind List.maximum?

/-- Trailing window over a series that may have undefined positions:
defined only when every position in the window is defined, matching NaN
propagation through pandas rolling aggregations. -/
def optionWindow (xs : List (Option ℚ)) (w i : ℕ) : Option (List ℚ) :=
  if w ≤ i + 1 ∧ i < xs.length then ((xs.drop (i + 1 - w)).take w).mapM (fun o => o)
  else none

/-- Rolling mean over a series with undefined positions. -/
def rollingMeanO (xs : List (Option ℚ)) (w i : ℕ) : Option ℚ :=
  (optionWindow xs w i).map listMean

/-- `_calculate_stochastic` %K at position `i`.  The columns are assumed
aligned (the sources index all of them by the same trading dates).  A zero
high-low range is a float division by zero in the source and is modelled
as an undefined value. -/
def stochKAt (high low close : List ℚ) (k_period i : ℕ) : Option ℚ :=
  match rollingMinAt low k_period i, rollingMaxAt high k_period i with
  | some lowest_low, some highest_high =>
      if i < close.length then
        if highest_high - lowest_low = 0 then none
        else some (100 * ((close.getD i 0 - lowest_low) / (highest_high - lowest_low)))
      else none
  | _, _ => none

/-- The %K values as a series indexed like the close column. -/
def stochKSeries (high low close : List ℚ) (k_period : ℕ) : List (Option ℚ) :=
  (List.range close.length).map (fun i => stochKAt high low close k_period i)

/-- `_calculate_stochastic` %D: the `d_period` rolling mean of %K. -/
def stochDAt (high low close : List ℚ) (k_period d_period i : ℕ) : Option ℚ :=
  rollingMeanO (stochKSeries high low close k_period) d_period i

/-- `_calculate_volume_ratio` at position `i`; a zero volume SMA would be
a float division by zero and is modelled as undefined. -/
def volumeRatioAt (volumes : List ℚ) (period i : ℕ) : Option ℚ :=
  match rollingMean volumes period i with
  | some volume_sma =>
      if i < volumes.length then
        if volume_sma = 0 then none else some (volumes.getD i 0 / volume_sma)
      else none
  | none => none

/-- `_calculate_price_change` at position `i`:
`(price[i] / price[i-lag] - 1) * 100`, undefined during the first `lag`
positions (`shift` produces NaN there); a zero base price would be a float
division by zero and is modelled as undefined. -/
def priceChangeAt (prices : List ℚ) (lag i : ℕ) : Option ℚ :=
  if lag ≤ i ∧ i < prices.length then
    if prices.getD (i - lag) 0 = 0 then none
    else some ((prices.getD i 0 / prices.getD (i - lag) 0 - 1) * 100)
  else none

/-- Daily returns `pct_change()`: undefined at position 0, and at a zero
previous close (float division by zero). -/
def returnsSeries : List ℚ → List (Option ℚ)
  | [] => []
  | x :: xs => none :: ((x :: xs).zip xs).map
      (fun p => if p.1 = 0 then none else some ((p.2 - p.1) / p.1))

/-- `_calculate_volatility`: rolling standard deviation of daily returns,
annualised by `√252`. -/
noncomputable def volatilityAt (prices : List ℚ) (period i : ℕ) : Option ℝ :=
  (optionWindow (returnsSeries prices) period i).map
    (fun ws => Real.sqrt ((sampleVariance ws : ℚ) : ℝ) * Real.sqrt 252)

/-- One row of the price-history DataFrame consumed by the analyzers. -/
structure PriceRow where
  close_price : Option ℚ
  high_price : Option ℚ
  low_price : Option ℚ
  volume : Option ℚ

/-- Rationals embedded into the reals, on optional values. -/
def toRealOpt (o : Option ℚ) : Option ℝ := o.map (fun q => (q : ℝ))

namespace StockAnalyzer

/-- `StockAnalyzer.calculate_technical_indicators`.  The function is total:
an empty input or fewer than 20 valid (non-missing) closes yields the empty
map, and the source additionally wraps the body in a `try/except` that
returns the empty map on any exception, so it never raises.  Otherwise the
map holds the latest value of each derived series (a value is `none` when
the series is still inside its warm-up window at the last position, the
NaN the source stores there). -/
noncomputable def calculate_technical_indicators (price_data : List PriceRow) :
    List (String × Option ℝ) :=
  if price_data.isEmpty then []
  else if (price_data.filterMap (fun r => r.close_price)).length < 20 then []
  else
    let close_prices := price_data.filterMap (fun r => r.close_price)
    let high_prices := price_data.filterMap (fun r => r.high_price)
    let low_prices := price_data.filterMap (fun r => r.low_price)
    let volumes := price_data.filterMap (fun r => r.volume)
    let i := close_prices.length - 1
    let iv := volumes.length - 1
    [("sma_5", toRealOpt (rollingMean close_prices 5 i)),
     ("sma_10", toRealOpt (rollingMean close_prices 10 i)),
     ("sma_20", toRealOpt (rollingMean close_prices 20 i)),
     ("sma_50", toRealOpt (rollingMean close_prices 50 i)),
     ("rsi_14", toRealOpt (calculate_rsi close_prices 14 i)),
     ("macd_line", toRealOpt (macdLineSeries close_prices).getLast?),
     ("macd_signal", toRealOpt (macdSignalSeries close_prices).getLast?),
     ("macd_histogram", toRealOpt (macdHistogramSeries close_prices).getLast?),
     ("bb_upper", (calculate_bollinger_bands close_prices 20 i).map (fun b => b.1)),
     ("bb_middle", (calculate_bollinger_bands close_prices 20 i).map (fun b => b.2.1)),
     ("bb_lower", (calculate_bollinger_bands close_prices 20 i).map (fun b => b.2.2)),
     ("stoch_k", toRealOpt (stochKAt high_prices low_prices close_prices 14 i)),
     ("stoch_d", toRealOpt (stochDAt high_prices low_prices close_prices 14 3 i)),
     ("volume_sma_20", toRealOpt (rollingMean volumes 20 iv)),
     ("volume_ratio", toRealOpt (volumeRatioAt volumes 20 iv)),
     ("price_change_1d", toRealOpt (priceChangeAt close_prices 1 i)),
     ("price_change_5d", toRealOpt (priceChangeAt close_prices 5 i)),
     ("price_change_20d", toRealOpt (priceChangeAt close_prices 20 i)),
     ("volatility_20d", volatilityAt close_prices 20 i)]

end StockAnalyzer

/-- Fifteen complete rows: 15 valid closes, below the threshold of 20. -/
def fifteenRows : List PriceRow := List.replicate 15 ⟨some 100, some 101, some 99, some 1000⟩

/-- `max(0.0, min(1.0, x))`. -/
def clamp01 (x : ℚ) : ℚ := max 0 (min 1 x)

namespace AnalysisDataManager

/-- The accepted investment styles (the keys of the
`self.investment_styles` dictionary set in `__init__`). -/
def investment_styles : List String := ["short_term", "long_term"]

/-- `AnalysisDataManager._calculate_confidence_score`: a base score of 0.5,
plus the completeness ratio of non-`None` indicator values times 0.3 (only
when the map is non-empty), plus 0.1 when the 20-day volatility is present
and below 0.2, clamped to `[0, 1]`. -/
def calculate_confidence_score (indicators : List (String × Option ℚ)) : ℚ :=
  let valid_indicators := (indicators.map Prod.snd).countP Option.isSome
  let total_indicators := indicators.length
  let score₁ : ℚ :=
    if 0 < total_indicators then
      1 / 2 + ((valid_indicators : ℚ) / (total_indicators : ℚ)) * (3 / 10)
    else 1 / 2
  let score₂ : ℚ :=
    match dictGet indicators "volatility_20d" with
    | some volatility => if volatility < 1 / 5 then score₁ + 1 / 10 else score₁
    | none => score₁
  clamp01 score₂

end AnalysisDataManager

namespace StockAnalyzer

/-- `StockAnalyzer._calculate_ai_confidence`: a base score of 0.5, plus the
completeness ratio times 0.2, plus the signal-consistency ratio
`|buy_count − sell_count| / (buy_count + sell_count)` times 0.3, clamped to
`[0, 1]`.  The buy/sell counts are fetched from the signal map with
default 0. -/
def calculate_ai_confidence (indicators : List (String × Option ℚ))
    (buy_count sell_count : ℕ) : ℚ :=
  let valid_indicators := (indicators.map Prod.snd).countP Option.isSome
  let total_indicators := indicators.length
  let score₁ : ℚ :=
    if 0 < total_indicators then
      1 / 2 + ((valid_indicators : ℚ) / (total_indicators : ℚ)) * (1 / 5)
    else 1 / 2
  let total_signals := buy_count + sell_count
  let score₂ : ℚ :=
    if 0 < total_signals then
      score₁ + (|(buy_count : ℚ) - (sell_count : ℚ)| / (total_signals : ℚ)) * (3 / 10)
    else score₁
  clamp01 score₂

end StockAnalyzer

/-- The confidence-score formula exactly as the claim states it: 0.5 plus
the completeness ratio times 0.3, plus a 0.1 bonus exactly when the
20-period volatility is present and below 0.2, clamped to `[0, 1]` (with
the empty map's `0/0` completeness ratio read as 0). -/
def confidenceScoreClaim (indicators : List (String × Option ℚ)) : ℚ :=
  clamp01 (1 / 2 +
    (((indicators.map Prod.snd).countP Option.isSome : ℚ) / (indicators.length : ℚ))
      * (3 / 10) +
    (match dictGet indicators "volatility_20d" with
     | some volatility => if volatility < 1 / 5 then (1 : ℚ) / 10 else 0
     | none => 0))

namespace AnalysisDataManager

/-- A row of the `technical_indicators` table.  The indicator columns are
carried as the saved indicator map; dates are abstract day numbers. -/
structure TechnicalIndicatorRecord where
  stock_code : String
  analysis_date : ℕ
  investment_style : String
  indicator_values : List (String × Option ℚ)
  confidence_score : ℚ
deriving DecidableEq

/-- A row of the `investment_decisions` table; the decision payload is
carried verbatim (its fields are copied one-for-one by the source and are
irrelevant to the persistence behaviour). -/
structure InvestmentDecisionRecord where
  stock_code : String
  analysis_date : ℕ
  investment_style : String
  decision_data : List (String × String)
deriving DecidableEq

/-- The duplicate-check filter of `save_technical_indicators`: same stock
code, same analysis date, same investment style. -/
def matchesIndicatorKey (stock_code : String) (analysis_date : ℕ)
    (investment_style : String) (r : TechnicalIndicatorRecord) : Bool :=
  r.stock_code == stock_code && r.analysis_date == analysis_date &&
    r.investment_style == investment_style

/-- `AnalysisDataManager.save_technical_indicators` acting on the stored
table: an invalid style is rejected up front (`False`, nothing written);
if a record with the same (code, date, style) key already exists the call
is a no-op reported as success; otherwise the new record is inserted. -/
def save_technical_indicators (db : List TechnicalIndicatorRecord)
    (stock_code : String) (indicators : List (String × Option ℚ))
    (investment_style : String) (analysis_date : ℕ) :
    Bool × List TechnicalIndicatorRecord :=
  if investment_style ∉ investment_styles then (false, db)
  else
    match db.find? (matchesIndicatorKey stock_code analysis_date investment_style) with
    | some _ => (true, db)
    | none =>
        (true, db ++ [⟨stock_code, analysis_date, investment_style, indicators,
          calculate_confidence_score indicators⟩])

/-- The duplicate-check filter of `save_investment_decision`. -/
def matchesDecisionKey (stock_code : String) (analysis_date : ℕ)
    (investment_style : String) (r : InvestmentDecisionRecord) : Bool :=
  r.stock_code == stock_code && r.analysis_date == analysis_date &&
    r.investment_style == investment_style

/-- `AnalysisDataManager.save_investment_decision`: same pattern as the
indicator write — style gate, duplicate check, insert. -/
def save_investment_decision (db : List InvestmentDecisionRecord)
    (stock_code : String) (decision_data : List (String × String))
    (investment_style : String) (analysis_date : ℕ) :
    Bool × List InvestmentDecisionRecord :=
  if investment_style ∉ investment_styles then (false, db)
  else
    match db.find? (matchesDecisionKey stock_code analysis_date investment_style) with
    | some _ => (true, db)
    | none => (true, db ++ [⟨stock_code, analysis_date, investment_style, decision_data⟩])

end AnalysisDataManager

theorem listMean_nonneg (xs : List ℚ) (h : ∀ x ∈ xs, 0 ≤ x) : 0 ≤ listMean xs := by
  unfold listMean
  exact div_nonneg (List.sum_nonneg h) (by positivity)

theorem rollingWindow_mem (xs : List ℚ) (w i : ℕ) (ws : List ℚ)
    (h : rollingWindow xs w i = some ws) : ∀ x ∈ ws, x ∈ xs := by
  unfold rollingWindow at h
  split at h
  · cases h
    intro x hx
    exact List.mem_of_mem_drop (List.mem_of_mem_take hx)
  · cases h

theorem rollingMean_nonneg (xs : List ℚ) (hxs : ∀ x ∈ xs, 0 ≤ x) (w i : ℕ) (m : ℚ)
    (h : rollingMean xs w i = some m) : 0 ≤ m := by
  unfold rollingMean at h
  cases hw : rollingWindow xs w i with
  | none => rw [hw] at h; cases h
  | some ws =>
      rw [hw] at h
      cases h
      exact listMean_nonneg ws (fun x hx => hxs x (rollingWindow_mem xs w i ws hw x hx))

theorem gainSeries_nonneg (xs : List ℚ) : ∀ x ∈ gainSeries xs, 0 ≤ x := by
  cases xs with
  | nil => intro x hx; cases hx
  | cons a as =>
      intro x hx
      simp only [gainSeries, List.mem_cons, List.mem_map] at hx
      rcases hx with rfl | ⟨p, _, rfl⟩
      · exact le_refl 0
      · exact le_max_right _ _

theorem lossSeries_nonneg (xs : List ℚ) : ∀ x ∈ lossSeries xs, 0 ≤ x := by
  cases xs with
  | nil => intro x hx; cases hx
  | cons a as =>
      intro x hx
      simp only [lossSeries, List.mem_cons, List.mem_map] at hx
      rcases hx with rfl | ⟨p, _, rfl⟩
      · exact le_refl 0
      · exact le_max_right _ _

theorem rsiValue_bounded (g l : ℚ) (hg : 0 ≤ g) (hl : 0 ≤ l) :
    (rsiValue g l).elim True (fun r => 0 ≤ r ∧ r ≤ 100) := by
  unfold rsiValue
  by_cases h0 : l = 0
  · by_cases hg0 : g = 0
    · simp [h0, hg0]
    · simp only [h0, hg0, if_true, if_false, Option.elim]
      norm_num
  · have hlpos : 0 < l := lt_of_le_of_ne hl (Ne.symm h0)
    have hrs : 0 ≤ g / l := div_nonneg hg hl
    have hden : (0 : ℚ) < 1 + g / l := by linarith
    have hfrac_pos : 0 < 100 / (1 + g / l) := by positivity
    have hfrac_le : 100 / (1 + g / l) ≤ 100 := by
      rw [div_le_iff₀ hden]; nlinarith
    simp only [h0, if_false, Option.elim]
    constructor <;> linarith

/-- C4. For every price series, the RSI computed as
`RS = mean(gains, period) / mean(losses, period)`,
`RSI = 100 - 100/(1 + RS)` lies in `[0, 100]` at every position where it
is defined. -/
theorem rsi_in_unit_range (prices : List ℚ) (period i : ℕ) :
    (calculate_rsi prices period i).elim True (fun r => 0 ≤ r ∧ r ≤ 100) := by
  unfold calculate_rsi
  cases hgm : rollingMean (gainSeries prices) period i with
  | none => simp
  | some g =>
      cases hlm : rollingMean (lossSeries prices) period i with
      | none => simp
      | some l =>
          exact rsiValue_bounded g l
            (rollingMean_nonneg _ (gainSeries_nonneg prices) period i g hgm)
            (rollingMean_nonneg _ (lossSeries_nonneg prices) period i l hlm)

/-- C5. For every price series, the Bollinger Bands computed with
`middle = SMA(window)` and `upper/lower = middle ± 2·rolling_std(window)`
satisfy `upper ≥ middle ≥ lower` at every position where all three are
defined. -/
theorem bollinger_bands_ordered (prices : List ℚ) (period i : ℕ) :
    (calculate_bollinger_bands prices period i).elim True
      (fun b => b.2.2 ≤ b.2.1 ∧ b.2.1 ≤ b.1) := by
  unfold calculate_bollinger_bands
  cases hw : rollingWindow prices period i with
  | none => simp
  | some ws =>
      have hstd : (0 : ℝ) ≤ Real.sqrt ((sampleVariance ws : ℚ) : ℝ) := Real.sqrt_nonneg _
      simp only [Option.elim]
      constructor <;> linarith

theorem sortedVals_sorted (xs : List ℚ) : (sortedVals xs).Sorted (· ≤ ·) :=
  List.sorted_insertionSort _ xs

theorem sortedVals_length (xs : List ℚ) : (sortedVals xs).length = xs.length :=
  (List.perm_insertionSort _ xs).length_eq

theorem sorted_getD_mono {s : List ℚ} (hs : s.Sorted (· ≤ ·)) {i j : ℕ}
    (hij : i ≤ j) (hj : j < s.length) : s.getD i 0 ≤ s.getD j 0 := by
  have hi : i < s.length := lt_of_le_of_lt hij hj
  rw [List.getD_eq_get s 0 hi, List.getD_eq_get s 0 hj]
  exact hs.rel_get_of_le (Fin.mk_le_mk.mpr hij)

theorem quantile_aux {n : ℕ} (hn : 1 ≤ n) {q : ℚ} (h0 : 0 ≤ q) (h1 : q ≤ 1) :
    ((⌊q * ((n : ℚ) - 1)⌋.toNat : ℚ)) ≤ q * ((n : ℚ) - 1) ∧
    q * ((n : ℚ) - 1) < ((⌊q * ((n : ℚ) - 1)⌋.toNat : ℚ)) + 1 ∧
    ⌊q * ((n : ℚ) - 1)⌋.toNat + 1 ≤ n := by
  have hn1 : (1 : ℚ) ≤ (n : ℚ) := by exact_mod_cast hn
  have hpos0 : 0 ≤ q * ((n : ℚ) - 1) := mul_nonneg h0 (by linarith)
  have hfl0 : 0 ≤ ⌊q * ((n : ℚ) - 1)⌋ := Int.floor_nonneg.mpr hpos0
  have hk_eq : ((⌊q * ((n : ℚ) - 1)⌋.toNat : ℕ) : ℚ) = ((⌊q * ((n : ℚ) - 1)⌋ : ℤ) : ℚ) := by
    exact_mod_cast Int.toNat_of_nonneg hfl0
  have hk_le : ((⌊q * ((n : ℚ) - 1)⌋.toNat : ℕ) : ℚ) ≤ q * ((n : ℚ) - 1) := by
    rw [hk_eq]; exact Int.floor_le _
  have hk_lt : q * ((n : ℚ) - 1) < ((⌊q * ((n : ℚ) - 1)⌋.toNat : ℕ) : ℚ) + 1 := by
    rw [hk_eq]; exact Int.lt_floor_add_one _
  have hle : q * ((n : ℚ) - 1) ≤ (n : ℚ) - 1 := by nlinarith
  refine ⟨hk_le, hk_lt, ?_⟩
  have h2 : ((⌊q * ((n : ℚ) - 1)⌋.toNat : ℕ) : ℚ) + 1 ≤ (n : ℚ) := by linarith
  exact_mod_cast h2

theorem quantileSorted_bounds {s : List ℚ} (hs : s.Sorted (· ≤ ·)) (hne : s ≠ [])
    {q : ℚ} (h0 : 0 ≤ q) (h1 : q ≤ 1) :
    s.getD 0 0 ≤ quantileSorted s q ∧ quantileSorted s q ≤ s.getD (s.length - 1) 0 := by
  have hn : 1 ≤ s.length := List.length_pos.mpr hne
  obtain ⟨hk_le, hk_lt, hkn⟩ := quantile_aux hn h0 h1
  unfold quantileSorted
  set k := ⌊q * ((s.length : ℚ) - 1)⌋.toNat with hkdef
  by_cases hbr : k + 1 < s.length
  · rw [if_pos hbr]
    have hadj : s.getD k 0 ≤ s.getD (k + 1) 0 := sorted_getD_mono hs (Nat.le_succ k) hbr
    have hfrac0 : 0 ≤ q * ((s.length : ℚ) - 1) - (k : ℚ) := by linarith
    have hfrac1 : q * ((s.length : ℚ) - 1) - (k : ℚ) ≤ 1 := by linarith
    have hd0 : (0 : ℚ) ≤ s.getD (k + 1) 0 - s.getD k 0 := by linarith
    constructor
    · have h0k : s.getD 0 0 ≤ s.getD k 0 := sorted_getD_mono hs (Nat.zero_le k) (by omega)
      nlinarith [mul_nonneg hfrac0 hd0]
    · have hlast : s.getD (k + 1) 0 ≤ s.getD (s.length - 1) 0 :=
        sorted_getD_mono hs (by omega) (by omega)
      nlinarith [mul_le_of_le_one_left hd0 hfrac1]
  · rw [if_neg hbr]
    exact ⟨sorted_getD_mono hs (Nat.zero_le _) (by omega), le_refl _⟩

theorem quantileSorted_mono {s : List ℚ} (hs : s.Sorted (· ≤ ·)) (hne : s ≠ [])
    {q₁ q₂ : ℚ} (hq0 : 0 ≤ q₁) (h12 : q₁ ≤ q₂) (hq1 : q₂ ≤ 1) :
    quantileSorted s q₁ ≤ quantileSorted s q₂ := by
  have hn : 1 ≤ s.length := List.length_pos.mpr hne
  have hn1 : (1 : ℚ) ≤ (s.length : ℚ) := by exact_mod_cast hn
  obtain ⟨hk1_le, hk1_lt, hk1n⟩ := quantile_aux hn hq0 (le_trans h12 hq1)
  obtain ⟨hk2_le, hk2_lt, hk2n⟩ := quantile_aux hn (le_trans hq0 h12) hq1
  have hposle : q₁ * ((s.length : ℚ) - 1) ≤ q₂ * ((s.length : ℚ) - 1) :=
    mul_le_mul_of_nonneg_right h12 (by linarith)
  have hkk : ⌊q₁ * ((s.length : ℚ) - 1)⌋.toNat ≤ ⌊q₂ * ((s.length : ℚ) - 1)⌋.toNat :=
    Int.toNat_le_toNat (Int.floor_le_floor hposle)
  unfold quantileSorted
  set k₁ := ⌊q₁ * ((s.length : ℚ) - 1)⌋.toNat with hk1d
  set k₂ := ⌊q₂ * ((s.length : ℚ) - 1)⌋.toNat with hk2d
  rcases eq_or_lt_of_le hkk with heq | hlt
  · rw [← heq]
    by_cases hbr : k₁ + 1 < s.length
    · rw [if_pos hbr, if_pos hbr]
      have hadj : (0 : ℚ) ≤ s.getD (k₁ + 1) 0 - s.getD k₁ 0 := by
        have := sorted_getD_mono hs (Nat.le_succ k₁) hbr; linarith
      have hfr : q₁ * ((s.length : ℚ) - 1) - (k₁ : ℚ) ≤
          q₂ * ((s.length : ℚ) - 1) - (k₁ : ℚ) := by linarith
      have hprod := mul_le_mul_of_nonneg_right hfr hadj
      linarith [hprod]
    · rw [if_neg hbr, if_neg hbr]
  · have hbr1 : k₁ + 1 < s.length := by omega
    rw [if_pos hbr1]
    have hadj1 : (0 : ℚ) ≤ s.getD (k₁ + 1) 0 - s.getD k₁ 0 := by
      have := sorted_getD_mono hs (Nat.le_succ k₁) hbr1; linarith
    have hfrac1 : q₁ * ((s.length : ℚ) - 1) - (k₁ : ℚ) ≤ 1 := by linarith
    have hv1 : s.getD k₁ 0 +
        (q₁ * ((s.length : ℚ) - 1) - (k₁ : ℚ)) * (s.getD (k₁ + 1) 0 - s.getD k₁ 0) ≤
        s.getD (k₁ + 1) 0 := by
      nlinarith [mul_le_of_le_one_left hadj1 hfrac1]
    have hmid : s.getD (k₁ + 1) 0 ≤ s.getD k₂ 0 := sorted_getD_mono hs (by omega) (by omega)
    by_cases hbr2 : k₂ + 1 < s.length
    · rw [if_pos hbr2]
      have hadj2 : (0 : ℚ) ≤ s.getD (k₂ + 1) 0 - s.getD k₂ 0 := by
        have := sorted_getD_mono hs (Nat.le_succ k₂) hbr2; linarith
      have hfr2 : 0 ≤ q₂ * ((s.length : ℚ) - 1) - (k₂ : ℚ) := by linarith
      nlinarith [mul_nonneg hfr2 hadj2]
    · rw [if_neg hbr2]
      have hk2last : s.getD k₂ 0 ≤ s.getD (s.length - 1) 0 :=
        sorted_getD_mono hs (by omega) (by omega)
      linarith

/-- C10. For every non-empty close-price series and `lookback = min(length,
cap)` (the caller in `calculate_long_term_indicators` caps the lookback at
200, the limited fallback at 50), the computation returns exactly three
support levels and exactly three resistance levels, and every support level
is at most every resistance level. -/
theorem support_resistance_three_ordered_levels (closes : List ℚ) (cap : ℕ)
    (hne : closes ≠ []) (hcap : 1 ≤ cap) :
    ((calculate_support_resistance closes (min closes.length cap)).1.length = 3 ∧
      (calculate_support_resistance closes (min closes.length cap)).2.length = 3) ∧
    ∀ a ∈ (calculate_support_resistance closes (min closes.length cap)).1,
      ∀ b ∈ (calculate_support_resistance closes (min closes.length cap)).2, a ≤ b := by
  have hlen : 1 ≤ closes.length := List.length_pos.mpr hne
  have hlb : ¬ (closes.length < min closes.length cap) := by omega
  unfold calculate_support_resistance
  rw [if_neg hlb]
  have hreclen : (closes.drop (closes.length - min closes.length cap)).length =
      min closes.length cap := by rw [List.length_drop]; omega
  set recent := closes.drop (closes.length - min closes.length cap) with hrec
  have hs : (sortedVals recent).Sorted (· ≤ ·) := sortedVals_sorted recent
  have hslen : (sortedVals recent).length = recent.length := sortedVals_length recent
  have hsne : sortedVals recent ≠ [] := by
    intro h
    rw [h] at hslen
    simp only [List.length_nil] at hslen
    omega
  have hminq : ∀ q : ℚ, 0 ≤ q → q ≤ 1 → seriesMin recent ≤ seriesQuantile recent q := by
    intro q h0 h1
    exact (quantileSorted_bounds hs hsne h0 h1).1
  have hqmax : ∀ q : ℚ, 0 ≤ q → q ≤ 1 → seriesQuantile recent q ≤ seriesMax recent := by
    intro q h0 h1
    have := (quantileSorted_bounds hs hsne h0 h1).2
    unfold seriesMax
    rw [← hslen] at *
    exact this
  have hminmax : seriesMin recent ≤ seriesMax recent := by
    unfold seriesMin seriesMax
    rw [← hslen]
    exact sorted_getD_mono hs (Nat.zero_le _) (by omega)
  have hmono : ∀ q₁ q₂ : ℚ, 0 ≤ q₁ → q₁ ≤ q₂ → q₂ ≤ 1 →
      seriesQuantile recent q₁ ≤ seriesQuantile recent q₂ := by
    intro q₁ q₂ h0 h12 h1
    exact quantileSorted_mono hs hsne h0 h12 h1
  refine ⟨⟨rfl, rfl⟩, ?_⟩
  intro a ha b hb
  simp only [List.mem_cons, List.mem_singleton, List.not_mem_nil, or_false] at ha hb
  rcases ha with rfl | rfl | rfl <;> rcases hb with rfl | rfl | rfl
  · exact hminmax
  · exact hminq _ (by norm_num) (by norm_num)
  · exact hminq _ (by norm_num) (by norm_num)
  · exact hqmax _ (by norm_num) (by norm_num)
  · exact hmono _ _ (by norm_num) (by norm_num) (by norm_num)
  · exact hmono _ _ (by norm_num) (by norm_num) (by norm_num)
  · exact hqmax _ (by norm_num) (by norm_num)
  · exact hmono _ _ (by norm_num) (by norm_num) (by norm_num)
  · exact hmono _ _ (by norm_num) (by norm_num) (by norm_num)

/-- Witness for C10 at the concrete series `[1, 2, 3, 4, 5]` with the
caller's cap of 200. -/
theorem support_resistance_three_ordered_levels_w :
    (calculate_support_resistance [1, 2, 3, 4, 5]
        (min (List.length ([1, 2, 3, 4, 5] : List ℚ)) 200)).1.length = 3 ∧
    (calculate_support_resistance [1, 2, 3, 4, 5]
        (min (List.length ([1, 2, 3, 4, 5] : List ℚ)) 200)).2.length = 3 :=
  (support_resistance_three_ordered_levels [1, 2, 3, 4, 5] 200 (by decide) (by decide)).1

namespace LongTermStockAnalyzer

set_option maxRecDepth 8000 in
theorem longTermKeys_step : ∀ l < 252, 40 ≤ l →
    (longTermIndicatorKeys l).length ≤ (longTermIndicatorKeys (l + 1)).length := by decide

/-- C6 (amended part). Reducing the series length from 252 valid closes
down to 40 never increases the number of indicator keys returned by the
long-horizon engine. -/
theorem longTermKeys_count_antitone (l₁ l₂ : ℕ) (h40 : 40 ≤ l₁) (h12 : l₁ ≤ l₂)
    (h252 : l₂ ≤ 252) :
    (longTermIndicatorKeys l₁).length ≤ (longTermIndicatorKeys l₂).length := by
  induction l₂, h12 using Nat.le_induction with
  | base => exact le_refl _
  | succ m hm ih =>
      exact le_trans (ih (by omega)) (longTermKeys_step m (by omega) (by omega))

/-- Witness for C6 at the extreme lengths 40 and 252 (15 and 29 keys). -/
theorem longTermKeys_count_antitone_w :
    (longTermIndicatorKeys 40).length ≤ (longTermIndicatorKeys 252).length ∧
    (longTermIndicatorKeys 40).length = 15 ∧ (longTermIndicatorKeys 252).length = 29 :=
  ⟨longTermKeys_count_antitone 40 252 (by decide) (by decide) (by decide),
   by decide, by decide⟩

set_option maxRecDepth 8000 in
/-- C6 counterexample. Keys do not merely disappear as data shrinks: the
below-50 fallback renames the indicator family, so `sma_20` is present at
49 valid closes yet absent at every length from 50 to 252. -/
theorem longTermKeys_reappear_cx :
    ("sma_20" ∈ longTermIndicatorKeys 49) ∧
    ((List.range 203).all
      (fun j => decide ("sma_20" ∉ longTermIndicatorKeys (50 + j))) = true) := by
  exact ⟨by decide, by decide⟩

end LongTermStockAnalyzer

namespace StockAnalyzer

theorem overallOf_spec (b s : ℕ) :
    (overallOf b s = "買い推奨" ↔ s < b) ∧ (overallOf b s = "売り推奨" ↔ b < s) ∧
    (overallOf b s = "中立" ↔ b = s) := by
  unfold overallOf
  rcases lt_trichotomy s b with h | h | h
  · rw [if_pos h]
    exact ⟨iff_of_true rfl h, iff_of_false (by decide) (by omega),
      iff_of_false (by decide) (by omega)⟩
  · rw [if_neg (by omega), if_neg (by omega)]
    exact ⟨iff_of_false (by decide) (by omega), iff_of_false (by decide) (by omega),
      iff_of_true rfl (by omega)⟩
  · rw [if_neg (by omega), if_pos h]
    exact ⟨iff_of_false (by decide) (by omega), iff_of_true rfl h,
      iff_of_false (by decide) (by omega)⟩

end StockAnalyzer

/-- C3. For every indicator map and current price for which the
short-horizon classifier produces a signal map, the overall verdict is the
buy recommendation iff `buy_count > sell_count`, the sell recommendation
iff `sell_count > buy_count`, and neutral iff the counts are equal. -/
theorem overall_signal_matches_counts (indicators : List (String × Option ℚ))
    (current_price : Option ℚ) (ts : StockAnalyzer.TradingSignals)
    (h : StockAnalyzer.generate_trading_signals indicators current_price = some ts) :
    (ts.overall_signal = "買い推奨" ↔ ts.sell_count < ts.buy_count) ∧
    (ts.overall_signal = "売り推奨" ↔ ts.buy_count < ts.sell_count) ∧
    (ts.overall_signal = "中立" ↔ ts.buy_count = ts.sell_count) := by
  unfold StockAnalyzer.generate_trading_signals at h
  cases hm : StockAnalyzer.macdSignalPart indicators with
  | none => rw [hm] at h; cases h
  | some macdLabels =>
      rw [hm] at h
      simp only [Option.some.injEq] at h
      subst h
      exact StockAnalyzer.overallOf_spec _ _

/-- Witness for C3: Scenario D yields `buy_count = 1`, `sell_count = 1`
and a neutral overall verdict satisfying the count trichotomy. -/
theorem overall_signal_matches_counts_w :
    ((scenarioD_signals.overall_signal = "買い推奨" ↔
        scenarioD_signals.sell_count < scenarioD_signals.buy_count) ∧
      (scenarioD_signals.overall_signal = "売り推奨" ↔
        scenarioD_signals.buy_count < scenarioD_signals.sell_count) ∧
      (scenarioD_signals.overall_signal = "中立" ↔
        scenarioD_signals.buy_count = scenarioD_signals.sell_count)) ∧
    scenarioD_signals.buy_count = 1 ∧ scenarioD_signals.sell_count = 1 ∧
    scenarioD_signals.overall_signal = "中立" :=
  ⟨overall_signal_matches_counts scenarioD_indicators (some 100) scenarioD_signals
      (by decide),
   rfl, rfl, rfl⟩

/-- C2 (code bug in the long-horizon classifier). At RSI = 80 the
long-horizon classifier labels the reading 売られすぎ（強気）— "oversold
(bullish)" — a bullish label counted toward the bullish overall verdict
and not a sell label, while the short-horizon classifier correctly labels
RSI = 80 as 売り (sell); symmetrically RSI = 20 gets the bearish
買われすぎ（弱気） label from the long-horizon classifier. -/
theorem long_term_rsi_labels_inverted :
    (LongTermStockAnalyzer.generate_long_term_signals
        [("rsi_26", some 80)] 0).lookup "rsi_signal" = some "売られすぎ（強気）" ∧
    strContains "売られすぎ（強気）" "強気" = true ∧
    strContains "売られすぎ（強気）" "売り" = false ∧
    (LongTermStockAnalyzer.generate_long_term_signals
        [("rsi_26", some 20)] 0).lookup "rsi_signal" = some "買われすぎ（弱気）" ∧
    ((StockAnalyzer.generate_trading_signals [("rsi_14", some 80)] (some 100)).map
        (fun ts => ts.labels.lookup "rsi_signal")) = some (some "売り") := by
  exact ⟨by decide, by decide, by decide, by decide, by decide⟩

/-- C1. For every input price series with fewer than 20 valid (non-missing)
closing prices, the short-horizon engine returns the empty indicator map;
being a total function, the embedded engine never raises, matching the
source's catch-all that also returns the empty map. -/
theorem short_engine_empty_below_20 (price_data : List PriceRow)
    (h : (price_data.filterMap (fun r => r.close_price)).length < 20) :
    StockAnalyzer.calculate_technical_indicators price_data = [] := by
  unfold StockAnalyzer.calculate_technical_indicators
  by_cases he : price_data.isEmpty
  · rw [if_pos he]
  · rw [if_neg he, if_pos h]

/-- Witness for C1: a 15-row series yields the empty indicator map. -/
theorem short_engine_empty_below_20_w :
    StockAnalyzer.calculate_technical_indicators fifteenRows = [] :=
  short_engine_empty_below_20 fifteenRows (by decide)

/-- C7 (amended). The persisted confidence score follows the claimed
formula for every indicator map; the analyzer's separate AI-confidence
score does not — at the map `{volatility_20d: 0.1}` with no directional
signals it scores 0.7 where the claimed formula gives 0.9. -/
theorem confidence_score_amended :
    (∀ indicators : List (String × Option ℚ),
      AnalysisDataManager.calculate_confidence_score indicators =
        confidenceScoreClaim indicators) ∧
    StockAnalyzer.calculate_ai_confidence [("volatility_20d", some (1 / 10))] 0 0 ≠
      confidenceScoreClaim [("volatility_20d", some (1 / 10))] := by
  constructor
  · intro indicators
    simp only [AnalysisDataManager.calculate_confidence_score, confidenceScoreClaim]
    cases indicators with
    | nil => norm_num [dictGet]
    | cons hd tl =>
        rw [if_pos (by simp : 0 < (hd :: tl).length)]
        cases hv : dictGet (hd :: tl) "volatility_20d" with
        | none => congr 1; ring
        | some volatility =>
            dsimp only
            by_cases hlt : volatility < 1 / 5
            · rw [if_pos hlt, if_pos hlt]
            · rw [if_neg hlt, if_neg hlt]
              congr 1
              ring
  · norm_num [StockAnalyzer.calculate_ai_confidence, confidenceScoreClaim, clamp01,
      dictGet, List.countP, List.countP.go, List.lookup]

/-- C7 counterexample. The claim, read over the analyzer's AI-confidence
score (one of its two cited implementations), fails at the concrete map
`{volatility_20d: 0.1}` with no directional signals: the code yields 0.7,
the claimed formula 0.9. -/
theorem ai_confidence_differs_cx :
    StockAnalyzer.calculate_ai_confidence [("volatility_20d", some (1 / 10))] 0 0 ≠
      confidenceScoreClaim [("volatility_20d", some (1 / 10))] ∧
    StockAnalyzer.calculate_ai_confidence [("volatility_20d", some (1 / 10))] 0 0 =
      7 / 10 ∧
    confidenceScoreClaim [("volatility_20d", some (1 / 10))] = 9 / 10 := by
  refine ⟨?_, ?_, ?_⟩ <;>
    norm_num [StockAnalyzer.calculate_ai_confidence, confidenceScoreClaim, clamp01,
      dictGet, List.countP, List.countP.go, List.lookup]

/-- C8. Persisting an indicator snapshot twice for the same (stock_code,
analysis_date, investment_style) key — starting from a table with no
record for that key — leaves exactly one stored record for the key: the
second call finds the existing record, inserts nothing, and still reports
success. -/
theorem save_indicators_idempotent (db : List AnalysisDataManager.TechnicalIndicatorRecord)
    (stock_code : String) (indicators : List (String × Option ℚ))
    (investment_style : String) (analysis_date : ℕ)
    (hstyle : investment_style ∈ AnalysisDataManager.investment_styles)
    (hfresh : db.find?
      (AnalysisDataManager.matchesIndicatorKey stock_code analysis_date investment_style)
        = none) :
    (AnalysisDataManager.save_technical_indicators
        (AnalysisDataManager.save_technical_indicators db stock_code indicators
          investment_style analysis_date).2
        stock_code indicators investment_style analysis_date).1 = true ∧
    (AnalysisDataManager.save_technical_indicators
        (AnalysisDataManager.save_technical_indicators db stock_code indicators
          investment_style analysis_date).2
        stock_code indicators investment_style analysis_date).2 =
      (AnalysisDataManager.save_technical_indicators db stock_code indicators
        investment_style analysis_date).2 ∧
    ((AnalysisDataManager.save_technical_indicators
        (AnalysisDataManager.save_technical_indicators db stock_code indicators
          investment_style analysis_date).2
        stock_code indicators investment_style analysis_date).2.filter
      (AnalysisDataManager.matchesIndicatorKey stock_code analysis_date investment_style)
        ).length = 1 := by
  have hsty : ¬ (investment_style ∉ AnalysisDataManager.investment_styles) := by
    simp [hstyle]
  unfold AnalysisDataManager.save_technical_indicators
  rw [if_neg hsty, hfresh]
  have hrec : AnalysisDataManager.matchesIndicatorKey stock_code analysis_date
      investment_style
      ⟨stock_code, analysis_date, investment_style, indicators,
        AnalysisDataManager.calculate_confidence_score indicators⟩ = true := by
    simp [AnalysisDataManager.matchesIndicatorKey]
  have hfind2 : (db ++ [(⟨stock_code, analysis_date, investment_style, indicators,
      AnalysisDataManager.calculate_confidence_score indicators⟩ :
        AnalysisDataManager.TechnicalIndicatorRecord)]).find?
      (AnalysisDataManager.matchesIndicatorKey stock_code analysis_date investment_style)
      = some ⟨stock_code, analysis_date, investment_style, indicators,
          AnalysisDataManager.calculate_confidence_score indicators⟩ := by
    rw [List.find?_append, hfresh]
    simp [List.find?, hrec]
  rw [if_neg hsty, hfind2]
  refine ⟨rfl, rfl, ?_⟩
  have hnone : ∀ r ∈ db, ¬ (AnalysisDataManager.matchesIndicatorKey stock_code
      analysis_date investment_style r = true) := by
    intro r hr
    exact List.find?_eq_none.mp hfresh r hr
  rw [List.filter_append, List.filter_eq_nil.mpr hnone]
  simp [hrec]

/-- Witness for C8: writing the same snapshot twice into an empty table. -/
theorem save_indicators_idempotent_w :
    (AnalysisDataManager.save_technical_indicators
        (AnalysisDataManager.save_technical_indicators [] "7203" [] "short_term" 0).2
        "7203" [] "short_term" 0).1 = true ∧
    (AnalysisDataManager.save_technical_indicators
        (AnalysisDataManager.save_technical_indicators [] "7203" [] "short_term" 0).2
        "7203" [] "short_term" 0).2 =
      (AnalysisDataManager.save_technical_indicators [] "7203" [] "short_term" 0).2 ∧
    ((AnalysisDataManager.save_technical_indicators
        (AnalysisDataManager.save_technical_indicators [] "7203" [] "short_term" 0).2
        "7203" [] "short_term" 0).2.filter
      (AnalysisDataManager.matchesIndicatorKey "7203" 0 "short_term")).length = 1 :=
  save_indicators_idempotent [] "7203" [] "short_term" 0 (by decide) rfl

/-- C9. A call to either save routine with an investment style outside
{short_term, long_term} returns `False` and leaves the stored state
unchanged. -/
theorem invalid_style_rejected (style : String)
    (h : style ∉ AnalysisDataManager.investment_styles)
    (db₁ : List AnalysisDataManager.TechnicalIndicatorRecord)
    (db₂ : List AnalysisDataManager.InvestmentDecisionRecord)
    (stock_code : String) (indicators : List (String × Option ℚ))
    (decision_data : List (String × String)) (analysis_date : ℕ) :
    AnalysisDataManager.save_technical_indicators db₁ stock_code indicators style
      analysis_date = (false, db₁) ∧
    AnalysisDataManager.save_investment_decision db₂ stock_code decision_data style
      analysis_date = (false, db₂) := by
  unfold AnalysisDataManager.save_technical_indicators
    AnalysisDataManager.save_investment_decision
  rw [if_pos h, if_pos h]
  exact ⟨rfl, rfl⟩

/-- Witness for C9 with the style string `day_trading` used elsewhere in
the sources but not accepted by the persistence layer. -/
theorem invalid_style_rejected_w :
    AnalysisDataManager.save_technical_indicators [] "7203" [] "day_trading" 0 =
      (false, []) ∧
    AnalysisDataManager.save_investment_decision [] "7203" [] "day_trading" 0 =
      (false, []) :=
  invalid_style_rejected "day_trading" (by decide) [] [] "7203" [] [] 0
